import Mathlib

/-!
Shallow embedding of the ingestion-deduplicator subsystem of the `crypt`
repository: `upload_to_mongodb` (src/crypt/backend/mongodb.py), the
orchestration script (src/crypt/backend/upload_data.py), and the rekt-news
identifier derivation (src/crypt/backend/rss.py).

The document store (pymongo) and the feed fetchers (feedparser, the
Newscatcher client) are external collaborators; their behaviour during one
run is modelled by explicit parameters (`StoreBehavior`, `FetchResults`).
-/

namespace Crypt

/-- A fetched article record: the unique `article_id` field the deduplicator
keys on, plus the rest of the document, which the deduplicator never
inspects (records are otherwise schema-free). -/
structure Record where
  articleId : Nat
  payload : String
deriving DecidableEq

/-- The `article_id` values of the stored records of a collection, in store
order; `set(mongodb_collection.distinct "article_id")` is queried for
membership only, so a list queried via `∈` models it. -/
def storedIds (coll : List Record) : List Nat :=
  coll.map Record.articleId

/-- A store operation issued against one collection. -/
inductive StoreOp where
  | distinctQuery
  | insertMany (records : List Record)
deriving DecidableEq

/-- What a call prints about its outcome:
`inserted n` for "Inserted n articles.", `noNew` for
"No new articles to insert." (mongodb.py), `insertError` for the caught
insert exception ("PyMongo error: ..." / "General error: ..."), and
`noData` for "No new ... data can be found" (upload_data.py). -/
inductive Report where
  | inserted (n : Nat)
  | noNew
  | insertError
  | noData
deriving DecidableEq

/-- The count a report conveys: `inserted n` reports n; the no-insert
messages convey that zero records were inserted. -/
def Report.count : Report → Nat
  | .inserted n => n
  | _ => 0

/-- Exceptions that can escape the embedded Python functions:
`distinctExn` for a store failure in the uncaught `distinct` call,
`typeError` for a keyword-argument mismatch at a call site, and
`fetchError msg` for a fetcher exception re-raised at module level. -/
inductive PyErr where
  | distinctExn
  | typeError
  | fetchError (msg : String)
deriving DecidableEq

/-- Behaviour of the external document store during one call:
whether the `distinct` query succeeds, whether `insert_many` succeeds, and,
when `insert_many` fails, how many leading records of the attempted batch
were nevertheless persisted (the store may fail atomically or partially). -/
structure StoreBehavior where
  distinctOk : Bool
  insertOk : Bool
  partialCount : Nat
deriving DecidableEq

/-- The store behaving normally: both operations succeed. -/
def uploadOk : StoreBehavior := ⟨true, true, 0⟩

/-- Outcome of one call touching one collection: the collection contents
afterwards, the store operations attempted, and either the printed report
(normal return; the Python function returns None) or an escaping
exception. -/
structure UploadOutcome where
  coll : List Record
  ops : List StoreOp
  result : Except PyErr Report

/-- mongodb.py line 49: `articles_to_insert = [article for article in
article_data if article["article_id"] not in existing_article_ids]`. -/
def articles_to_insert (coll article_data : List Record) : List Record :=
  article_data.filter (fun a => decide (a.articleId ∉ storedIds coll))

/-- Shallow embedding of `upload_to_mongodb` (mongodb.py lines 32-59):
query the distinct stored `article_id` values (uncaught: a failure there
escapes), filter the candidate batch to records whose id is not among
them, and, if any remain, insert them with a single `insert_many` inside a
try/except that catches and prints any insert failure; otherwise print
"No new articles to insert." -/
def upload_to_mongodb (beh : StoreBehavior) (coll article_data : List Record) :
    UploadOutcome :=
  if beh.distinctOk then
    let toInsert := articles_to_insert coll article_data
    if toInsert = [] then
      ⟨coll, [.distinctQuery], .ok .noNew⟩
    else
      if beh.insertOk then
        ⟨coll ++ toInsert, [.distinctQuery, .insertMany toInsert],
          .ok (.inserted toInsert.length)⟩
      else
        ⟨coll ++ toInsert.take beh.partialCount,
          [.distinctQuery, .insertMany toInsert], .ok .insertError⟩
  else
    ⟨coll, [.distinctQuery], .error .distinctExn⟩

/-- The parameter names of `upload_to_mongodb` (mongodb.py line 32):
`def upload_to_mongodb(collection_name: str, article_data: list)`. -/
def upload_to_mongodb_params : List String :=
  ["collection_name", "article_data"]

/-- The keyword arguments used at the call site inside
`upload_articles_to_db` (upload_data.py line 22):
`mdb.upload_to_mongodb(collection_name=collection_name, data=article_data)`. -/
def upload_call_kwargs : List String :=
  ["collection_name", "data"]

/-- Python keyword binding for a function whose parameters are all
positional-or-keyword without defaults, called with keyword arguments
only: the call binds iff every keyword names a parameter and every
parameter receives one; otherwise a TypeError is raised before the callee
body runs. -/
def kwargsBind (params kwargs : List String) : Bool :=
  kwargs.all (fun k => params.contains k) &&
    params.all (fun p => kwargs.contains p)

/-- Shallow embedding of `upload_articles_to_db` (upload_data.py lines
20-24): a truthy (non-empty) batch is forwarded to `upload_to_mongodb`
via the keyword call above — which raises a TypeError when the keywords do
not bind — and an empty batch only prints
"No new ... data can be found". -/
def upload_articles_to_db (beh : StoreBehavior)
    (coll article_data : List Record) : UploadOutcome :=
  if article_data = [] then
    ⟨coll, [], .ok .noData⟩
  else
    if kwargsBind upload_to_mongodb_params upload_call_kwargs then
      upload_to_mongodb beh coll article_data
    else
      ⟨coll, [], .error .typeError⟩

/-- The results of the four fetchers for one run. Fetchers are external
collaborators doing network I/O; each either returns a batch or raises. -/
structure FetchResults where
  rekt : Except String (List Record)
  crypto : Except String (List Record)
  newscatcher : Except String (List Record)
  youtube : Except String (List Record)

/-- The module-level fetch block of upload_data.py (lines 7-14): all four
fetches run sequentially inside a single try; the first failure is logged
and re-raised, aborting the whole run. -/
def fetchPhase (f : FetchResults) :
    Except PyErr (List Record × List Record × List Record × List Record) :=
  match f.rekt with
  | .error e => .error (.fetchError e)
  | .ok a =>
    match f.crypto with
    | .error e => .error (.fetchError e)
    | .ok b =>
      match f.newscatcher with
      | .error e => .error (.fetchError e)
      | .ok c =>
        match f.youtube with
        | .error e => .error (.fetchError e)
        | .ok d => .ok (a, b, c, d)

/-- The four collections the run writes to: "rekt_news", "crypto_news",
"newscatcher_news", "youtube_news". -/
structure DB where
  rekt_news : List Record
  crypto_news : List Record
  newscatcher_news : List Record
  youtube_news : List Record
deriving DecidableEq

/-- A database with all four collections empty. -/
def emptyDB : DB := ⟨[], [], [], []⟩

/-- Outcome of one run of the upload_data.py script: the database
afterwards, and whether the script finished or died on an exception. -/
structure RunOutcome where
  db : DB
  result : Except PyErr Unit

/-- Shallow embedding of the upload_data.py script: fetch all four
sources (one shared try, re-raise on failure), then call
`upload_articles_to_db` for each collection in order; an exception
escaping any call aborts the rest of the run. -/
def runUpload (beh : StoreBehavior) (f : FetchResults) (db : DB) :
    RunOutcome :=
  match fetchPhase f with
  | .error e => ⟨db, .error e⟩
  | .ok (a, b, c, d) =>
    let o1 := upload_articles_to_db beh db.rekt_news a
    let db1 : DB := ⟨o1.coll, db.crypto_news, db.newscatcher_news, db.youtube_news⟩
    match o1.result with
    | .error e => ⟨db1, .error e⟩
    | .ok _ =>
      let o2 := upload_articles_to_db beh db1.crypto_news b
      let db2 : DB := ⟨db1.rekt_news, o2.coll, db1.newscatcher_news, db1.youtube_news⟩
      match o2.result with
      | .error e => ⟨db2, .error e⟩
      | .ok _ =>
        let o3 := upload_articles_to_db beh db2.newscatcher_news c
        let db3 : DB := ⟨db2.rekt_news, db2.crypto_news, o3.coll, db2.youtube_news⟩
        match o3.result with
        | .error e => ⟨db3, .error e⟩
        | .ok _ =>
          let o4 := upload_articles_to_db beh db3.youtube_news d
          let db4 : DB := ⟨db3.rekt_news, db3.crypto_news, db3.newscatcher_news, o4.coll⟩
          match o4.result with
          | .error e => ⟨db4, .error e⟩
          | .ok _ => ⟨db4, .ok ()⟩

/-- Value of one hexadecimal digit, as `int(s, 16)` reads it. -/
def hexDigitVal (c : Char) : Nat :=
  if '0' ≤ c ∧ c ≤ '9' then c.toNat - '0'.toNat
  else if 'a' ≤ c ∧ c ≤ 'f' then c.toNat - 'a'.toNat + 10
  else if 'A' ≤ c ∧ c ≤ 'F' then c.toNat - 'A'.toNat + 10
  else 0

/-- `int(s, 16)`: a hexadecimal string read as a natural number. -/
def hexToNat (s : String) : Nat :=
  s.data.foldl (fun acc c => 16 * acc + hexDigitVal c) 0

/-- One parsed feed entry as rss.py reads it: the fields used by
`get_rekt_news_articles` besides the link. -/
structure FeedEntry where
  link : String
  title : String
  published : String
  summary : String

/-- The identifier assigned by `get_rekt_news_articles` (rss.py line 21):
`int(hashlib.sha256(article.link.encode()).hexdigest(), 16) % (10**6)`.
The SHA-256 digest comes from the external hashlib library and is modelled
as an abstract hex-digest function applied to the link. -/
def rektEntryArticleId (sha256hex : String → String) (e : FeedEntry) : Nat :=
  hexToNat (sha256hex e.link) % (10 ^ 6)

/-! ### Helper lemmas -/

theorem mem_articles_to_insert {coll batch : List Record} {r : Record} :
    r ∈ articles_to_insert coll batch ↔
      r ∈ batch ∧ r.articleId ∉ storedIds coll := by
  simp [articles_to_insert, List.mem_filter]

theorem articles_to_insert_eq_nil {coll batch : List Record} :
    articles_to_insert coll batch = [] ↔
      ∀ r ∈ batch, r.articleId ∈ storedIds coll := by
  simp [articles_to_insert, List.filter_eq_nil_iff]

theorem upload_uploadOk_coll (coll batch : List Record) :
    (upload_to_mongodb uploadOk coll batch).coll =
      coll ++ articles_to_insert coll batch := by
  by_cases h : articles_to_insert coll batch = [] <;>
    simp [upload_to_mongodb, uploadOk, h]

theorem articles_to_insert_after (coll batch : List Record) :
    articles_to_insert (coll ++ articles_to_insert coll batch) batch = [] := by
  rw [articles_to_insert_eq_nil]
  intro r hr
  by_cases hmem : r.articleId ∈ storedIds coll
  · simp [storedIds, List.mem_append]
    exact Or.inl (by simpa [storedIds] using hmem)
  · have : r ∈ articles_to_insert coll batch :=
      mem_articles_to_insert.mpr ⟨hr, hmem⟩
    simp only [storedIds, List.map_append, List.mem_append]
    exact Or.inr (List.mem_map_of_mem Record.articleId this)

theorem articles_to_insert_sublist (coll batch : List Record) :
    (articles_to_insert coll batch).Sublist batch :=
  List.filter_sublist batch

/-! ### Claims -/

/-- C1, counterexample: the claim that after `upload_to_mongodb` no two
stored records share an `article_id` even when the candidate batch
contains intra-batch duplicates is false: inserting the batch
`[⟨5,"a"⟩, ⟨5,"b"⟩]` into an empty collection stores both records, so two
stored records share the identifier 5. -/
theorem C1_counterexample :
    (upload_to_mongodb uploadOk [] [⟨5, "a"⟩, ⟨5, "b"⟩]).coll
        = [⟨5, "a"⟩, ⟨5, "b"⟩] ∧
    ¬ (storedIds [(⟨5, "a"⟩ : Record), ⟨5, "b"⟩]).Nodup :=
  ⟨rfl, by decide⟩

/-- C1, amended: `upload_to_mongodb` filters only against the identifiers
already stored, so the uniqueness invariant is preserved exactly when the
candidate batch itself carries pairwise-distinct identifiers: if the
stored identifiers are distinct and the batch identifiers are distinct,
the stored identifiers are still distinct after the call. -/
theorem C1_uniqueness_distinct_batch (coll batch : List Record)
    (hc : (storedIds coll).Nodup) (hb : (storedIds batch).Nodup) :
    (storedIds (upload_to_mongodb uploadOk coll batch).coll).Nodup := by
  rw [upload_uploadOk_coll]
  simp only [storedIds, List.map_append]
  rw [List.nodup_append]
  refine ⟨hc, hb.sublist ((articles_to_insert_sublist coll batch).map Record.articleId), ?_⟩
  intro x hx hx2
  obtain ⟨r, hr, hrx⟩ := List.mem_map.mp hx2
  exact (mem_articles_to_insert.mp hr).2 (hrx ▸ hx)

/-- C1, witness for the amended theorem at a concrete input. -/
theorem C1_uniqueness_distinct_batch_witness :
    (storedIds (upload_to_mongodb uploadOk [⟨1, "x"⟩] [⟨1, "a"⟩, ⟨2, "b"⟩]).coll).Nodup :=
  C1_uniqueness_distinct_batch [⟨1, "x"⟩] [⟨1, "a"⟩, ⟨2, "b"⟩] (by decide) (by decide)

/-- C2: `upload_to_mongodb` first issues the distinct query, then inserts
exactly the candidate records whose `article_id` is absent from the stored
identifiers: if that subset is empty no insert is issued, and otherwise it
is written with a single bulk `insert_many`; the subset is characterised
element-wise against the batch and the stored identifiers. -/
theorem C2_exact_subset_insertion (coll batch : List Record) :
    ((upload_to_mongodb uploadOk coll batch).ops =
        if articles_to_insert coll batch = [] then [.distinctQuery]
        else [.distinctQuery, .insertMany (articles_to_insert coll batch)]) ∧
    (upload_to_mongodb uploadOk coll batch).coll =
      coll ++ articles_to_insert coll batch ∧
    ∀ r : Record, r ∈ articles_to_insert coll batch ↔
      r ∈ batch ∧ r.articleId ∉ storedIds coll := by
  refine ⟨?_, upload_uploadOk_coll coll batch, fun r => mem_articles_to_insert⟩
  by_cases h : articles_to_insert coll batch = [] <;>
    simp [upload_to_mongodb, uploadOk, h]

/-- C7: running the deduplicator a second time with the same candidate
batch inserts nothing: the second call leaves the collection unchanged,
issues no insert operation, and reports "No new articles to insert." -/
theorem C7_idempotent (coll batch : List Record) :
    upload_to_mongodb uploadOk ((upload_to_mongodb uploadOk coll batch).coll) batch =
      ⟨(upload_to_mongodb uploadOk coll batch).coll, [.distinctQuery], .ok .noNew⟩ := by
  rw [upload_uploadOk_coll]
  simp [upload_to_mongodb, uploadOk, articles_to_insert_after]

/-- C3, counterexample: the claim that one source's fetch failure leaves
the other sources' ingestion intact is false: with the rekt fetcher
failing and the crypto fetcher returning a fresh record, the run dies on
the re-raised fetch error and the database — in particular the
crypto_news collection — is unchanged. -/
theorem C3_counterexample :
    (runUpload uploadOk ⟨.error "boom", .ok [⟨2, "b"⟩], .ok [], .ok []⟩ emptyDB).db
        = emptyDB ∧
    (runUpload uploadOk ⟨.error "boom", .ok [⟨2, "b"⟩], .ok [], .ok []⟩ emptyDB).result
        = .error (.fetchError "boom") :=
  ⟨rfl, rfl⟩

/-- C3, amended: all four fetches share a single try/except that logs and
re-raises, so a failure of any fetcher aborts the run before any upload:
the database is unchanged and the run ends with the fetch error. -/
theorem C3_fetch_failure_aborts_run (beh : StoreBehavior) (f : FetchResults)
    (db : DB) (e : PyErr) (h : fetchPhase f = .error e) :
    (runUpload beh f db).db = db ∧ (runUpload beh f db).result = .error e := by
  simp [runUpload, h]

/-- C3, witness for the amended theorem at a concrete input. -/
theorem C3_fetch_failure_aborts_run_witness :
    (runUpload uploadOk ⟨.error "down", .ok [], .ok [], .ok []⟩ emptyDB).db = emptyDB ∧
    (runUpload uploadOk ⟨.error "down", .ok [], .ok [], .ok []⟩ emptyDB).result
        = .error (.fetchError "down") :=
  C3_fetch_failure_aborts_run uploadOk ⟨.error "down", .ok [], .ok [], .ok []⟩
    emptyDB (.fetchError "down") rfl

/-- C4, counterexample: in a run whose store cannot answer the distinct
query (simulated outage) and whose fetchers all succeed, the orchestrator
neither surfaces a distinct-query error nor processes the remaining
collections: the run dies on the keyword TypeError of the first non-empty
upload and the database is unchanged. -/
theorem C4_counterexample :
    (runUpload ⟨false, true, 0⟩
        ⟨.ok [⟨1, "a"⟩], .ok [⟨2, "b"⟩], .ok [], .ok []⟩ emptyDB).result
        = .error .typeError ∧
    (runUpload ⟨false, true, 0⟩
        ⟨.ok [⟨1, "a"⟩], .ok [⟨2, "b"⟩], .ok [], .ok []⟩ emptyDB).db = emptyDB :=
  ⟨rfl, rfl⟩

/-- C4, amended: inside `upload_to_mongodb` a failing distinct query
aborts that collection's ingestion with no insert attempted and the
collection unchanged, escaping as an exception — an outcome different
from an insert failure, which is caught inside the function; but no
caller catches the escaping exception, so the remaining collections of a
run would not be processed. -/
theorem C4_distinct_failure (beh : StoreBehavior) (coll batch : List Record)
    (h : beh.distinctOk = false) :
    (upload_to_mongodb beh coll batch).result = .error .distinctExn ∧
    (upload_to_mongodb beh coll batch).ops = [.distinctQuery] ∧
    (upload_to_mongodb beh coll batch).coll = coll ∧
    (upload_to_mongodb ⟨true, false, 0⟩ coll batch).result ≠ .error .distinctExn := by
  refine ⟨by simp [upload_to_mongodb, h], by simp [upload_to_mongodb, h],
    by simp [upload_to_mongodb, h], ?_⟩
  by_cases he : articles_to_insert coll batch = [] <;>
    simp [upload_to_mongodb, he]

/-- C4, witness for the amended theorem at a concrete input. -/
theorem C4_distinct_failure_witness :
    (upload_to_mongodb ⟨false, true, 0⟩ [] [⟨7, "z"⟩]).result = .error .distinctExn ∧
    (upload_to_mongodb ⟨false, true, 0⟩ [] [⟨7, "z"⟩]).ops = [.distinctQuery] ∧
    (upload_to_mongodb ⟨false, true, 0⟩ [] [⟨7, "z"⟩]).coll = [] ∧
    (upload_to_mongodb ⟨true, false, 0⟩ [] [⟨7, "z"⟩]).result ≠ .error .distinctExn :=
  C4_distinct_failure ⟨false, true, 0⟩ [] [⟨7, "z"⟩] rfl

/-- C5: `upload_articles_to_db` passes the batch to `upload_to_mongodb`
under the keyword `data`, but the parameter is named `article_data`, so
every non-empty batch raises a TypeError before any store access (no
operation issued, collection unchanged), while an empty batch takes the
no-op branch and returns normally. -/
theorem C5_orchestrator_type_error (beh : StoreBehavior)
    (coll batch : List Record) :
    (batch ≠ [] →
      upload_articles_to_db beh coll batch = ⟨coll, [], .error .typeError⟩) ∧
    (batch = [] →
      upload_articles_to_db beh coll batch = ⟨coll, [], .ok .noData⟩) := by
  have hbind : kwargsBind upload_to_mongodb_params upload_call_kwargs = false := rfl
  exact ⟨fun h => by simp [upload_articles_to_db, h, hbind],
    fun h => by simp [upload_articles_to_db, h]⟩

/-- C5, witness at a concrete non-empty batch. -/
theorem C5_orchestrator_type_error_witness :
    upload_articles_to_db uploadOk [] [⟨3, "c"⟩] = ⟨[], [], .error .typeError⟩ :=
  (C5_orchestrator_type_error uploadOk [] [⟨3, "c"⟩]).1 (by decide)

/-- C6: as long as the distinct query succeeds, `upload_to_mongodb`
always returns normally — an `insert_many` failure is caught by the
surrounding try/except rather than propagated — and a failing insert on a
non-empty filtered batch is reported as the caught insert error. -/
theorem C6_insert_failure_contained (beh : StoreBehavior)
    (coll batch : List Record) (hd : beh.distinctOk = true) :
    (∃ rep : Report, (upload_to_mongodb beh coll batch).result = .ok rep) ∧
    (beh.insertOk = false → articles_to_insert coll batch ≠ [] →
      (upload_to_mongodb beh coll batch).result = .ok .insertError) := by
  constructor
  · by_cases h : articles_to_insert coll batch = []
    · exact ⟨.noNew, by simp [upload_to_mongodb, hd, h]⟩
    · cases hi : beh.insertOk
      · exact ⟨.insertError, by simp [upload_to_mongodb, hd, h, hi]⟩
      · exact ⟨.inserted (articles_to_insert coll batch).length,
          by simp [upload_to_mongodb, hd, h, hi]⟩
  · intro hi h
    simp [upload_to_mongodb, hd, h, hi]

/-- C6, witness at a concrete input with a failing insert. -/
theorem C6_insert_failure_contained_witness :
    (upload_to_mongodb ⟨true, false, 0⟩ [] [⟨9, "w"⟩]).result = .ok .insertError :=
  (C6_insert_failure_contained ⟨true, false, 0⟩ [] [⟨9, "w"⟩] rfl).2 rfl (by decide)

/-- C8: under normal store behaviour `upload_to_mongodb` returns normally
and the count its report conveys equals the number of records actually
added to the collection; for an empty batch no insert is issued and the
zero-insert message is reported. -/
theorem C8_count_reported (coll batch : List Record) :
    (∃ rep : Report, (upload_to_mongodb uploadOk coll batch).result = .ok rep ∧
        rep.count + coll.length =
          (upload_to_mongodb uploadOk coll batch).coll.length) ∧
    (batch = [] →
      (upload_to_mongodb uploadOk coll batch).result = .ok .noNew ∧
      (upload_to_mongodb uploadOk coll batch).ops = [.distinctQuery]) := by
  constructor
  · by_cases h : articles_to_insert coll batch = []
    · exact ⟨.noNew, by simp [upload_to_mongodb, uploadOk, h, Report.count]⟩
    · refine ⟨.inserted (articles_to_insert coll batch).length, ?_, ?_⟩
      · simp [upload_to_mongodb, uploadOk, h]
      · simp [upload_to_mongodb, uploadOk, h, Report.count, Nat.add_comm]
  · intro hb
    subst hb
    have h : articles_to_insert coll [] = [] := by simp [articles_to_insert]
    simp [upload_to_mongodb, uploadOk, h]

/-- C8, witness: an empty batch against a non-empty collection reports
"No new articles to insert." and issues only the distinct query. -/
theorem C8_count_reported_witness :
    (upload_to_mongodb uploadOk [⟨1, "x"⟩] []).result = .ok .noNew ∧
    (upload_to_mongodb uploadOk [⟨1, "x"⟩] []).ops = [.distinctQuery] :=
  (C8_count_reported [⟨1, "x"⟩] []).2 rfl

/-- C9: whatever the store behaviour, one call of the deduplicator — and
one call of the orchestrator wrapper — only ever appends to the
collection: the previously stored records survive unchanged as a prefix
and the stored record count never decreases. -/
theorem C9_monotone_frame (beh : StoreBehavior) (coll batch : List Record) :
    (∃ tail, (upload_to_mongodb beh coll batch).coll = coll ++ tail) ∧
    coll.length ≤ (upload_to_mongodb beh coll batch).coll.length ∧
    (∃ t2, (upload_articles_to_db beh coll batch).coll = coll ++ t2) := by
  have hmain : ∃ tail, (upload_to_mongodb beh coll batch).coll = coll ++ tail := by
    cases hd : beh.distinctOk
    · exact ⟨[], by simp [upload_to_mongodb, hd]⟩
    · by_cases h : articles_to_insert coll batch = []
      · exact ⟨[], by simp [upload_to_mongodb, hd, h]⟩
      · cases hi : beh.insertOk
        · exact ⟨(articles_to_insert coll batch).take beh.partialCount,
            by simp [upload_to_mongodb, hd, h, hi]⟩
        · exact ⟨articles_to_insert coll batch,
            by simp [upload_to_mongodb, hd, h, hi]⟩
  refine ⟨hmain, ?_, ?_⟩
  · obtain ⟨tail, ht⟩ := hmain
    simp [ht]
  · have hbind : kwargsBind upload_to_mongodb_params upload_call_kwargs = false := rfl
    by_cases h : batch = [] <;>
      exact ⟨[], by simp [upload_articles_to_db, h, hbind]⟩

/-- C10: the rekt-news identifier is the (abstractly modelled) SHA-256
hex digest of the entry's link, read as an integer and reduced modulo
10^6: it depends on the link alone — entries sharing a link get the same
identifier — and always lies below 10^6. -/
theorem C10_rekt_id_deterministic_bounded (sha256hex : String → String)
    (e1 e2 : FeedEntry) (h : e1.link = e2.link) :
    rektEntryArticleId sha256hex e1 = rektEntryArticleId sha256hex e2 ∧
    rektEntryArticleId sha256hex e1 < 10 ^ 6 := by
  constructor
  · simp [rektEntryArticleId, h]
  · exact Nat.mod_lt _ (by norm_num)

/-- C10, witness: two entries with the same link and different other
fields receive the same identifier, below 10^6. -/
theorem C10_rekt_id_deterministic_bounded_witness :
    rektEntryArticleId (fun _ => "ab12") ⟨"https://rekt.news/a", "t1", "d1", "s1"⟩ =
      rektEntryArticleId (fun _ => "ab12") ⟨"https://rekt.news/a", "t2", "d2", "s2"⟩ ∧
    rektEntryArticleId (fun _ => "ab12") ⟨"https://rekt.news/a", "t1", "d1", "s1"⟩ < 10 ^ 6 :=
  C10_rekt_id_deterministic_bounded (fun _ => "ab12")
    ⟨"https://rekt.news/a", "t1", "d1", "s1"⟩
    ⟨"https://rekt.news/a", "t2", "d2", "s2"⟩ rfl

end Crypt
